import Mathlib

/-!
Shallow embedding of the job/payment status-lifecycle components of the
manus-mobile-mechanic-app repository:
  * `src/components/PaymentStatusTracker.js`
  * `src/components/CancelJobModal.js`

The React components keep local state via `useState` hooks; we embed that
state as explicit records.  An async handler (`handleUpdateStatus`,
`handleCancel`, `handleSendReminder`) is embedded as a pure function from
the pre-call state, the relevant props, and the settlement of the single
awaited injected callback (`Except` value: `.ok` models a resolved promise,
`.error` a rejected one) to the post-call state together with the ordered
trace of observable effects the handler performs (setState calls on the
busy flag, the external callback invocation, alerts, console logging,
invoking the `onClose` prop).  JavaScript `try { await cb(); A } catch
{ B } finally { C }` is embedded by casing on the callback's settlement:
`.ok` yields the trace of the try-continuation then `C`; `.error` yields
the catch trace then `C`.

Environment-supplied operations (`toLocaleDateString`, `toLocaleTimeString`,
`new Date().toISOString()`, the `$`-amount formatter built on `parseFloat`/
`toFixed`) are taken as parameters: they are locale/clock/IEEE-float
facilities external to this code, and the claims only constrain how their
results are combined.
-/

/-- Observable effects performed by the component handlers, in order. -/
inductive UIEvent where
  | setLoading (b : Bool)
  | callUpdateStatus (id : String)
  | setSelectedStatus (id : String)
  | callCancel (reason : String) (reasonText : Option String)
      (cancelledBy : String) (cancelledAt : String)
  | invokeClose
  | showAlert (title msg : String)
  | logError (msg : String)
deriving DecidableEq, Repr

/-! ## PaymentStatusTracker.js -/

/-- One entry of the `PAYMENT_STATUSES` catalog: `{ id, label, color }`. -/
structure PaymentStatus where
  id : String
  label : String
  color : String
deriving DecidableEq, Repr

/-- The fixed `PAYMENT_STATUSES` array of PaymentStatusTracker.js. -/
def PAYMENT_STATUSES : List PaymentStatus :=
  [ ⟨"unpaid", "Unpaid", "#f44336"⟩,
    ⟨"pending", "Payment Pending", "#ff9800"⟩,
    ⟨"partial", "Partially Paid", "#2196f3"⟩,
    ⟨"paid", "Paid", "#4caf50"⟩,
    ⟨"refunded", "Refunded", "#9c27b0"⟩ ]

/-- The `useState` local state of `PaymentStatusTracker`:
`loading`, `selectedStatus`, `showHistory`. -/
structure TrackerState where
  loading : Bool
  selectedStatus : String
  showHistory : Bool
deriving DecidableEq, Repr

/-- Initial hook values: `useState(false)`, `useState(currentStatus)`,
`useState(false)`. -/
def initTrackerState (currentStatus : String) : TrackerState :=
  { loading := false, selectedStatus := currentStatus, showHistory := false }

/-- `const statusObj = PAYMENT_STATUSES.find(s => s.id === currentStatus)
|| PAYMENT_STATUSES[0];` — the badge definition for the current status. -/
def statusObj (currentStatus : String) : PaymentStatus :=
  (PAYMENT_STATUSES.find? (fun s => s.id == currentStatus)).getD
    (PAYMENT_STATUSES.head (by decide))

/-- The history row's status text:
`PAYMENT_STATUSES.find(s => s.id === item.status)?.label || item.status`.
JavaScript `||` falls through on a falsy (empty) label as well as on
`undefined` from a failed find. -/
def historyItemStatusLabel (status : String) : String :=
  match PAYMENT_STATUSES.find? (fun s => s.id == status) with
  | some s => if s.label == "" then status else s.label
  | none => status

/-- `handleUpdateStatus(newStatus)` of PaymentStatusTracker.js, given the
`currentStatus` prop, the pre-call local state, and the settlement of the
awaited `onUpdateStatus(newStatus)` call. -/
def handleUpdateStatus (currentStatus : String) (st : TrackerState)
    (newStatus : String) (onUpdateResult : Except String Unit) :
    TrackerState × List UIEvent :=
  if newStatus == currentStatus then (st, [])
  else
    match onUpdateResult with
    | .ok _ =>
        ({ st with loading := false, selectedStatus := newStatus },
         [ .setLoading true, .callUpdateStatus newStatus,
           .setSelectedStatus newStatus, .setLoading false ])
    | .error e =>
        ({ st with loading := false },
         [ .setLoading true, .callUpdateStatus newStatus,
           .logError e, .showAlert "Error" "Failed to update payment status",
           .setLoading false ])

/-- `handleSendReminder` of PaymentStatusTracker.js.  Its `try` block only
calls `Alert.alert` (a synchronous, non-throwing call — the real reminder
send is not implemented), so the `catch` branch cannot run and the embedded
trace has no failure case. -/
def handleSendReminder (st : TrackerState) : TrackerState × List UIEvent :=
  ({ st with loading := false },
   [ .setLoading true,
     .showAlert "Success" "Payment reminder sent to customer",
     .setLoading false ])

/-- The status chip's `disabled={loading || currentStatus === status.id}`. -/
def statusOptionDisabled (loading : Bool) (currentStatus statusId : String) :
    Bool :=
  loading || currentStatus == statusId

/-- `formatDate`: `date.toLocaleDateString() + ' ' + date.toLocaleTimeString()`,
with the two locale formatters passed in as environment parameters. -/
def formatDate (localeDateString localeTimeString : String → String)
    (dateString : String) : String :=
  localeDateString dateString ++ " " ++ localeTimeString dateString

/-- One element of the `paymentHistory` prop:
`{ status, date, amount?, note? }`. -/
structure PaymentHistoryEntry where
  status : String
  date : String
  amount : Option String
  note : Option String
deriving DecidableEq, Repr

/-- What one rendered history row displays. -/
structure RenderedHistoryItem where
  statusLabel : String
  dateText : String
  amountText : Option String
  noteText : Option String
deriving DecidableEq, Repr

/-- Rendering of a single history entry: resolved status label, formatted
date, and the conditional amount (`$` + `parseFloat(..).toFixed(2)`, taken
as the parameter `formatAmount`) and note lines, which JSX renders only for
truthy values. -/
def renderHistoryItem (localeDateString localeTimeString : String → String)
    (formatAmount : String → String) (item : PaymentHistoryEntry) :
    RenderedHistoryItem :=
  { statusLabel := historyItemStatusLabel item.status
    dateText := formatDate localeDateString localeTimeString item.date
    amountText :=
      match item.amount with
      | some a => if a == "" then none else some (formatAmount a)
      | none => none
    noteText :=
      match item.note with
      | some n => if n == "" then none else some n
      | none => none }

/-- `paymentHistory.map((item, index) => ...)`: the rows are produced by
mapping over the caller-supplied list in its given order. -/
def renderPaymentHistory (localeDateString localeTimeString : String → String)
    (formatAmount : String → String) (paymentHistory : List PaymentHistoryEntry) :
    List RenderedHistoryItem :=
  paymentHistory.map (renderHistoryItem localeDateString localeTimeString formatAmount)

/-! ## CancelJobModal.js -/

/-- One entry of the `CANCEL_REASONS` catalog: `{ id, label }`. -/
structure CancelReason where
  id : String
  label : String
deriving DecidableEq, Repr

/-- The fixed `CANCEL_REASONS` array of CancelJobModal.js. -/
def CANCEL_REASONS : List CancelReason :=
  [ ⟨"schedule_conflict", "Schedule Conflict"⟩,
    ⟨"found_another_mechanic", "Found Another Mechanic"⟩,
    ⟨"no_longer_needed", "Service No Longer Needed"⟩,
    ⟨"cost_concerns", "Cost Concerns"⟩,
    ⟨"vehicle_fixed", "Vehicle Fixed by Other Means"⟩,
    ⟨"other", "Other Reason"⟩ ]

/-- The `useState` local state of `CancelJobModal`:
`selectedReason` (initially `null`), `otherReason`, `loading`. -/
structure CancelModalState where
  selectedReason : Option String
  otherReason : String
  loading : Bool
deriving DecidableEq, Repr

/-- Initial hook values: `useState(null)`, `useState('')`, `useState(false)`. -/
def initCancelModalState : CancelModalState :=
  { selectedReason := none, otherReason := "", loading := false }

/-- `handleCancel` of CancelJobModal.js, given the `isCustomer` prop, the
clock sample `nowISO` standing for `new Date().toISOString()`, the pre-call
local state, and the settlement of the awaited `onCancel(cancellationData)`
call.  `if (!selectedReason)` is JavaScript truthiness: it fires on `null`
and on the empty string. -/
def handleCancel (isCustomer : Bool) (nowISO : String)
    (st : CancelModalState) (onCancelResult : Except String Unit) :
    CancelModalState × List UIEvent :=
  if st.selectedReason.getD "" == "" then
    (st, [.showAlert "Error" "Please select a cancellation reason"])
  else if st.selectedReason == some "other" && st.otherReason.trim == "" then
    (st, [.showAlert "Error" "Please provide details for your cancellation reason"])
  else
    let r := st.selectedReason.getD ""
    let reasonText : Option String :=
      if r == "other" then some st.otherReason
      else (CANCEL_REASONS.find? (fun c => c.id == r)).map (fun c => c.label)
    let cancelledBy := if isCustomer then "customer" else "mechanic"
    match onCancelResult with
    | .ok _ =>
        ({ selectedReason := none, otherReason := "", loading := false },
         [ .setLoading true,
           .callCancel r reasonText cancelledBy nowISO,
           .invokeClose, .setLoading false ])
    | .error e =>
        ({ st with loading := false },
         [ .setLoading true,
           .callCancel r reasonText cancelledBy nowISO,
           .logError e,
           .showAlert "Error" "Failed to cancel job. Please try again.",
           .setLoading false ])

/-- The confirm button's
`disabled={loading || !selectedReason ||
(selectedReason === 'other' && !otherReason.trim())}`. -/
def confirmButtonDisabled (loading : Bool) (selectedReason : Option String)
    (otherReason : String) : Bool :=
  loading || selectedReason.getD "" == "" ||
    (selectedReason == some "other" && otherReason.trim == "")

/-! ## Trace observations -/

/-- Whether a trace contains an `onUpdateStatus` invocation. -/
def callsOnUpdateStatus (ev : List UIEvent) : Bool :=
  ev.any (fun e => match e with | .callUpdateStatus _ => true | _ => false)

/-- Whether a trace contains an `onCancel` invocation. -/
def callsOnCancel (ev : List UIEvent) : Bool :=
  ev.any (fun e =>
    match e with | .callCancel _ _ _ _ => true | _ => false)

/-- The `cancellationData` record handed to `onCancel` in a trace, if any. -/
def cancelledData (ev : List UIEvent) :
    Option (String × Option String × String × String) :=
  ev.findSome? (fun e =>
    match e with
    | .callCancel r t b a => some (r, t, b, a)
    | _ => none)

/-- A trace that begins by raising the busy flag and ends by clearing it. -/
def busyWellBracketed (ev : List UIEvent) : Bool :=
  ev.head? == some (.setLoading true) && ev.getLast? == some (.setLoading false)

/-- The label the specification's words ascribe to an unknown history status
id: "a synthesized label derived by capitalizing the raw id".  Stated from
the spec, for comparison against `historyItemStatusLabel`. -/
def specCapitalizedFallback (status : String) : String :=
  status.capitalize

/-! ## Theorems: PaymentStatusTracker -/

/-- Counterexample to C1: with current status `unpaid`, requesting `paid`
while the injected callback rejects leaves `selectedStatus` at `unpaid`; it
has not already been changed to the requested status. -/
theorem selectedStatus_unchanged_on_reject_cex :
    ¬ ((handleUpdateStatus "unpaid" (initTrackerState "unpaid") "paid"
        (Except.error "network error")).1.selectedStatus = "paid") := by
  decide

/-- C1 (amended): in `handleUpdateStatus` the local `selectedStatus` mirror
is set to the requested status only after the injected `onUpdateStatus`
callback resolves; when the callback rejects, `selectedStatus` is left at
its pre-call value, so rejection causes no desync of `selectedStatus` from
its pre-call state. -/
theorem selectedStatus_set_only_after_resolve (cs : String) (st : TrackerState)
    (ns e : String) (h : ns ≠ cs) :
    (handleUpdateStatus cs st ns (Except.error e)).1.selectedStatus
        = st.selectedStatus
    ∧ (handleUpdateStatus cs st ns (Except.ok ())).2
        = [ .setLoading true, .callUpdateStatus ns,
            .setSelectedStatus ns, .setLoading false ]
    ∧ (handleUpdateStatus cs st ns (Except.ok ())).1.selectedStatus = ns := by
  have hb : (ns == cs) = false := by simp [h]
  simp [handleUpdateStatus, hb]

/-- Witness for the amended C1 at concrete inputs. -/
theorem selectedStatus_set_only_after_resolve_witness :
    (handleUpdateStatus "unpaid" (initTrackerState "unpaid") "paid"
        (Except.error "network error")).1.selectedStatus
      = (initTrackerState "unpaid").selectedStatus
    ∧ (handleUpdateStatus "unpaid" (initTrackerState "unpaid") "paid"
        (Except.ok ())).2
      = [ .setLoading true, .callUpdateStatus "paid",
          .setSelectedStatus "paid", .setLoading false ]
    ∧ (handleUpdateStatus "unpaid" (initTrackerState "unpaid") "paid"
        (Except.ok ())).1.selectedStatus = "paid" :=
  selectedStatus_set_only_after_resolve "unpaid" (initTrackerState "unpaid")
    "paid" "network error" (by decide)

/-- C4: requesting a transition to the current status id is a pure no-op,
not an error: the state is unchanged and the effect trace is empty (no
callback invocation, no busy flag, no alert), for any pre-call state and
any would-be settlement; moreover that status's chip is disabled. -/
theorem handleUpdateStatus_same_status_noop (cs : String) (st : TrackerState)
    (res : Except String Unit) (loading : Bool) :
    handleUpdateStatus cs st cs res = (st, [])
    ∧ statusOptionDisabled loading cs cs = true := by
  simp [handleUpdateStatus, statusOptionDisabled]

/-- C9: both the no-op guard and the chip-disabled check compare the
requested id against the `currentStatus` prop, not the local
`selectedStatus` mirror: when the requested id equals the already-selected
`selectedStatus` but differs from `currentStatus`, the chip is enabled and
another external `onUpdateStatus` call is issued rather than a no-op. -/
theorem guard_uses_currentStatus_not_selected (cs ns : String)
    (st : TrackerState) (res : Except String Unit)
    (h : ns ≠ cs) (_hsel : st.selectedStatus = ns) :
    callsOnUpdateStatus (handleUpdateStatus cs st ns res).2 = true
    ∧ statusOptionDisabled false cs ns = false := by
  have hb : (ns == cs) = false := by simp [h]
  have hb2 : (cs == ns) = false := by simp [Ne.symm h]
  cases res <;>
    simp [handleUpdateStatus, statusOptionDisabled, callsOnUpdateStatus, hb, hb2]

/-- Witness for C9: after an optimistic success (`selectedStatus = "paid"`)
that the parent has not yet reflected (`currentStatus = "unpaid"`),
requesting `paid` again calls out once more. -/
theorem guard_uses_currentStatus_not_selected_witness :
    callsOnUpdateStatus
      (handleUpdateStatus "unpaid" ⟨false, "paid", false⟩ "paid"
        (Except.ok ())).2 = true
    ∧ statusOptionDisabled false "unpaid" "paid" = false :=
  guard_uses_currentStatus_not_selected "unpaid" "paid"
    ⟨false, "paid", false⟩ (Except.ok ()) (by decide) rfl

/-- C10: `handleSendReminder` invokes no external service: for every state
its trace is exactly busy-on, the success alert, busy-off; the failure
alert of its catch branch never occurs and the busy flag ends false. -/
theorem handleSendReminder_no_external_call (st : TrackerState) :
    (handleSendReminder st).2
      = [ .setLoading true,
          .showAlert "Success" "Payment reminder sent to customer",
          .setLoading false ]
    ∧ callsOnUpdateStatus (handleSendReminder st).2 = false
    ∧ callsOnCancel (handleSendReminder st).2 = false
    ∧ (UIEvent.showAlert "Error" "Failed to send payment reminder")
        ∉ (handleSendReminder st).2
    ∧ (handleSendReminder st).1.loading = false := by
  refine ⟨rfl, rfl, rfl, by simp [handleSendReminder], rfl⟩

/-- Counterexample to C5: for the unknown history status id
`"check_bounced"`, the rendered history label is the raw id itself, not a
label synthesized by capitalizing the raw id. -/
theorem historyFallback_not_capitalized_cex :
    historyItemStatusLabel "check_bounced" = "check_bounced"
    ∧ specCapitalizedFallback "check_bounced" = "Check_bounced"
    ∧ historyItemStatusLabel "check_bounced"
        ≠ specCapitalizedFallback "check_bounced" := by
  refine ⟨rfl, by decide, by decide⟩

/-- C5 (amended): payment status lookup is total and never fails: an id
present in the catalog resolves to that entry (first match) for both the
badge and the history label; an unknown id resolves to the built-in list's
first entry for the badge and to the raw id itself for the history label. -/
theorem statusLookup_total (id : String) :
    (∀ s, PAYMENT_STATUSES.find? (fun t => t.id == id) = some s →
        statusObj id = s ∧ historyItemStatusLabel id = s.label)
    ∧ (PAYMENT_STATUSES.find? (fun t => t.id == id) = none →
        statusObj id = ⟨"unpaid", "Unpaid", "#f44336"⟩
        ∧ historyItemStatusLabel id = id) := by
  constructor
  · intro s hs
    have hmem : s ∈ PAYMENT_STATUSES := List.mem_of_find?_eq_some hs
    have hlabel : (s.label == "") = false := by
      fin_cases hmem <;> decide
    constructor
    · simp [statusObj, hs]
    · simp [historyItemStatusLabel, hs, hlabel]
  · intro hn
    constructor
    · simp only [statusObj]
      rw [hn]
      rfl
    · simp [historyItemStatusLabel, hn]

/-- Witness for the amended C5 at the concrete unknown id `"mystery"`. -/
theorem statusLookup_total_witness :
    statusObj "mystery" = ⟨"unpaid", "Unpaid", "#f44336"⟩
    ∧ historyItemStatusLabel "mystery" = "mystery" :=
  (statusLookup_total "mystery").2 (by decide)

/-! ## Theorems: CancelJobModal and cross-component invariants -/

/-- C2: when the injected `onCancel` resolves, both local fields are reset
to their initial empty values and `onClose` is invoked; when it rejects,
neither field is reset, `onClose` is not invoked, and a failure alert is
surfaced. -/
theorem handleCancel_reset_on_resolve_preserve_on_reject
    (isCustomer : Bool) (nowISO : String) (st : CancelModalState)
    (rs e : String)
    (hr : st.selectedReason = some rs) (hne : rs ≠ "")
    (hv : rs = "other" → st.otherReason.trim ≠ "") :
    ((handleCancel isCustomer nowISO st (Except.ok ())).1
        = initCancelModalState
      ∧ UIEvent.invokeClose
          ∈ (handleCancel isCustomer nowISO st (Except.ok ())).2)
    ∧ ((handleCancel isCustomer nowISO st (Except.error e)).1.selectedReason
          = st.selectedReason
      ∧ (handleCancel isCustomer nowISO st (Except.error e)).1.otherReason
          = st.otherReason
      ∧ UIEvent.invokeClose
          ∉ (handleCancel isCustomer nowISO st (Except.error e)).2
      ∧ UIEvent.showAlert "Error" "Failed to cancel job. Please try again."
          ∈ (handleCancel isCustomer nowISO st (Except.error e)).2) := by
  have h1 : (st.selectedReason.getD "" == "") = false := by
    simp [hr, hne]
  have h2 : (st.selectedReason == some "other"
      && st.otherReason.trim == "") = false := by
    by_cases ho : rs = "other"
    · simp [hr, ho, hv ho]
    · simp [hr, ho]
  simp [handleCancel, h1, h2, initCancelModalState]

/-- Witness for C2 with the reason `schedule_conflict` selected. -/
theorem handleCancel_reset_on_resolve_preserve_on_reject_witness :
    ((handleCancel true "2026-01-01T00:00:00.000Z"
        ⟨some "schedule_conflict", "", false⟩ (Except.ok ())).1
        = initCancelModalState
      ∧ UIEvent.invokeClose
          ∈ (handleCancel true "2026-01-01T00:00:00.000Z"
              ⟨some "schedule_conflict", "", false⟩ (Except.ok ())).2)
    ∧ ((handleCancel true "2026-01-01T00:00:00.000Z"
          ⟨some "schedule_conflict", "", false⟩
          (Except.error "network error")).1.selectedReason
          = (⟨some "schedule_conflict", "", false⟩ : CancelModalState).selectedReason
      ∧ (handleCancel true "2026-01-01T00:00:00.000Z"
          ⟨some "schedule_conflict", "", false⟩
          (Except.error "network error")).1.otherReason
          = (⟨some "schedule_conflict", "", false⟩ : CancelModalState).otherReason
      ∧ UIEvent.invokeClose
          ∉ (handleCancel true "2026-01-01T00:00:00.000Z"
              ⟨some "schedule_conflict", "", false⟩
              (Except.error "network error")).2
      ∧ UIEvent.showAlert "Error" "Failed to cancel job. Please try again."
          ∈ (handleCancel true "2026-01-01T00:00:00.000Z"
              ⟨some "schedule_conflict", "", false⟩
              (Except.error "network error")).2) :=
  handleCancel_reset_on_resolve_preserve_on_reject true
    "2026-01-01T00:00:00.000Z" ⟨some "schedule_conflict", "", false⟩
    "schedule_conflict" "network error" rfl (by decide)
    (fun h => absurd h (by decide))

/-- C3: with no call in flight, the confirm control is enabled and
`handleCancel` reaches the `onCancel` invocation exactly when a reason is
selected and it is either not `other` or the free text is non-blank after
trimming; in all other cases submission is blocked before the callback. -/
theorem cancellation_blocked_iff (isCustomer : Bool) (nowISO txt : String)
    (r : Option String) (l : Bool) (res : Except String Unit) :
    (confirmButtonDisabled false r txt = false
      ↔ (r.getD "" ≠ "" ∧ ¬(r = some "other" ∧ txt.trim = "")))
    ∧ (callsOnCancel (handleCancel isCustomer nowISO ⟨r, txt, l⟩ res).2 = true
      ↔ (r.getD "" ≠ "" ∧ ¬(r = some "other" ∧ txt.trim = ""))) := by
  by_cases h1 : r.getD "" = ""
  · constructor
    · simp [confirmButtonDisabled, h1]
    · simp [handleCancel, callsOnCancel, h1]
  · by_cases h2 : r = some "other" ∧ txt.trim = ""
    · constructor
      · simp [confirmButtonDisabled, h1, h2.1, h2.2]
      · simp [handleCancel, callsOnCancel, h1, h2.1, h2.2]
    · have h2b : (r == some "other" && txt.trim == "") = false := by
        rcases r with _ | rv
        · simp at h1
        · by_cases ho : rv = "other"
          · subst ho
            simp only [not_and] at h2
            simp [h2 trivial]
          · simp [ho]
      constructor
      · simp [confirmButtonDisabled, h1, h2, h2b]
      · cases res <;> simp [handleCancel, callsOnCancel, h1, h2, h2b]

/-- C7: history rows are the caller-supplied entries in list order — the
i-th rendered row is exactly the rendering of the i-th supplied entry, with
no re-sorting by timestamp — and each row's timestamp text is the locale
date string and the locale time string joined by a single space. -/
theorem history_order_and_timestamp
    (ld lt fa : String → String) (h : List PaymentHistoryEntry) (i : Nat) :
    (renderPaymentHistory ld lt fa h).length = h.length
    ∧ (renderPaymentHistory ld lt fa h)[i]?
        = (h[i]?).map (renderHistoryItem ld lt fa)
    ∧ ∀ e : PaymentHistoryEntry,
        (renderHistoryItem ld lt fa e).dateText = ld e.date ++ " " ++ lt e.date := by
  refine ⟨by simp [renderPaymentHistory], ?_, fun e => rfl⟩
  simp [renderPaymentHistory]

/-- C6: every update/cancellation run that invokes its injected callback
raises the busy flag before the call and clears it after the callback
settles — on both settlements the trace begins with busy-on and ends with
busy-off — and the flag is false once the run is over; both components also
start with the flag false, so the flag is false whenever no call is in
flight. -/
theorem busy_flag_bracketed
    (cs ns : String) (st : TrackerState) (res : Except String Unit)
    (isCustomer : Bool) (nowISO : String) (mst : CancelModalState)
    (mres : Except String Unit)
    (h : ns ≠ cs)
    (hm : callsOnCancel (handleCancel isCustomer nowISO mst mres).2 = true) :
    busyWellBracketed (handleUpdateStatus cs st ns res).2 = true
    ∧ (handleUpdateStatus cs st ns res).1.loading = false
    ∧ busyWellBracketed (handleCancel isCustomer nowISO mst mres).2 = true
    ∧ (handleCancel isCustomer nowISO mst mres).1.loading = false
    ∧ (initTrackerState cs).loading = false
    ∧ initCancelModalState.loading = false := by
  have hb : (ns == cs) = false := by simp [h]
  refine ⟨?_, ?_, ?_, ?_, rfl, rfl⟩
  · cases res <;> simp [handleUpdateStatus, hb, busyWellBracketed]
  · cases res <;> simp [handleUpdateStatus, hb]
  · revert hm
    unfold handleCancel
    split
    · intro hm
      simp [callsOnCancel] at hm
    · split
      · intro hm
        simp [callsOnCancel] at hm
      · intro _
        cases mres <;> rfl
  · revert hm
    unfold handleCancel
    split
    · intro hm
      simp [callsOnCancel] at hm
    · split
      · intro hm
        simp [callsOnCancel] at hm
      · intro _
        cases mres <;> rfl

/-- Witness for C6 at concrete inputs: an update of `unpaid → paid` and a
cancellation with the `cost_concerns` reason, both resolving. -/
theorem busy_flag_bracketed_witness :
    busyWellBracketed
        (handleUpdateStatus "unpaid" (initTrackerState "unpaid") "paid"
          (Except.ok ())).2 = true
    ∧ (handleUpdateStatus "unpaid" (initTrackerState "unpaid") "paid"
        (Except.ok ())).1.loading = false
    ∧ busyWellBracketed
        (handleCancel true "2026-01-02T03:04:05.000Z"
          ⟨some "cost_concerns", "", false⟩ (Except.ok ())).2 = true
    ∧ (handleCancel true "2026-01-02T03:04:05.000Z"
        ⟨some "cost_concerns", "", false⟩ (Except.ok ())).1.loading = false
    ∧ (initTrackerState "unpaid").loading = false
    ∧ initCancelModalState.loading = false :=
  busy_flag_bracketed "unpaid" "paid" (initTrackerState "unpaid")
    (Except.ok ()) true "2026-01-02T03:04:05.000Z"
    ⟨some "cost_concerns", "", false⟩ (Except.ok ()) (by decide) rfl

/-- C8: on a submission that reaches the callback, the record handed to
`onCancel` carries the selected one-of-six reason id, a definitely resolved
reason text (the free text for `other`, the fixed catalog label otherwise),
the role string derived from `isCustomer`, and the sampled clock value
(the `toISOString` output). -/
theorem cancellationData_shape (isCustomer : Bool) (nowISO txt : String)
    (l : Bool) (rs : String) (res : Except String Unit)
    (hmem : rs ∈ CANCEL_REASONS.map (fun c => c.id))
    (hv : rs = "other" → txt.trim ≠ "") :
    ∃ c, CANCEL_REASONS.find? (fun t => t.id == rs) = some c
      ∧ cancelledData (handleCancel isCustomer nowISO ⟨some rs, txt, l⟩ res).2
        = some (rs, (if rs == "other" then some txt else some c.label),
                (if isCustomer then "customer" else "mechanic"), nowISO) := by
  simp only [CANCEL_REASONS, List.map_cons, List.map_nil, List.mem_cons,
    List.not_mem_nil, or_false] at hmem
  rcases hmem with rfl | rfl | rfl | rfl | rfl | rfl
  · exact ⟨⟨"schedule_conflict", "Schedule Conflict"⟩, rfl,
      by cases res <;> rfl⟩
  · exact ⟨⟨"found_another_mechanic", "Found Another Mechanic"⟩, rfl,
      by cases res <;> rfl⟩
  · exact ⟨⟨"no_longer_needed", "Service No Longer Needed"⟩, rfl,
      by cases res <;> rfl⟩
  · exact ⟨⟨"cost_concerns", "Cost Concerns"⟩, rfl,
      by cases res <;> rfl⟩
  · exact ⟨⟨"vehicle_fixed", "Vehicle Fixed by Other Means"⟩, rfl,
      by cases res <;> rfl⟩
  · have ht : (txt.trim == "") = false := by simp [hv rfl]
    exact ⟨⟨"other", "Other Reason"⟩, rfl,
      by cases res <;> simp [handleCancel, cancelledData, ht]⟩

/-- Witness for C8 with the `vehicle_fixed` reason, a mechanic caller, and
a resolving callback. -/
theorem cancellationData_shape_witness :
    ∃ c, CANCEL_REASONS.find? (fun t => t.id == "vehicle_fixed") = some c
      ∧ cancelledData (handleCancel false "2026-02-03T04:05:06.000Z"
            ⟨some "vehicle_fixed", "", false⟩ (Except.ok ())).2
        = some ("vehicle_fixed",
                (if "vehicle_fixed" == "other" then some "" else some c.label),
                (if (false : Bool) then "customer" else "mechanic"),
                "2026-02-03T04:05:06.000Z") :=
  cancellationData_shape false "2026-02-03T04:05:06.000Z" "" false
    "vehicle_fixed" (Except.ok ()) (by decide)
    (fun h => absurd h (by decide))
